import Mathlib

/-!
Shallow embedding of `src/background/object/controller.ts` (web-scrobbler):
the playback-session controller, its dual timers, and the scrobble
aggregation logic.  Collaborators that live outside this file's source
(the `Timer` class, `Song` model, utility helpers, scrobbler results) are
modelled from the specification, and marked as such in their doc comments.
All time quantities are integers (TypeScript numbers used for whole
seconds; the threshold division is integer division, exact at the inputs
considered here).
-/

/-- The `ControllerMode` enumeration (`controller-mode.ts` values, as used by
`controller.ts`). -/
inductive ControllerMode where
  | Disabled
  | Base
  | Loading
  | Playing
  | Scrobbled
  | Ignored
  | Skipped
  | Unknown
  | Err
deriving DecidableEq, Repr

/-- A connector state / playback snapshot (`ConnectorState` fields read by the
controller).  Optional fields model TypeScript values that may be
`undefined`. -/
structure ConnectorState where
  artist : Option String
  track : Option String
  album : Option String
  uniqueID : Option String
  currentTime : Option Int
  duration : Option Int
  isPlaying : Bool
  isPodcast : Bool
  trackArt : Option String
deriving DecidableEq, Repr

/-- Modelled from the spec: the `Song` model (`SongImpl`), not under `src/`.
Identity fields are copied from the snapshot at creation; timing fields are
mutable; the four lifecycle flags start false; `isValid` is the derived
validity set by the enrichment pipeline. -/
structure Song where
  artist : Option String
  track : Option String
  album : Option String
  uniqueID : Option String
  currentTime : Option Int
  duration : Option Int
  isPlaying : Bool
  trackArt : Option String
  isSkipped : Bool
  isScrobbled : Bool
  isMarkedAsPlaying : Bool
  isReplaying : Bool
  isValid : Bool
deriving DecidableEq, Repr

/-- Source `new SongImpl(newState)`: a fresh song built from a connector state
(flags cleared, not yet valid). -/
def SongImpl (s : ConnectorState) : Song :=
  { artist := s.artist
    track := s.track
    album := s.album
    uniqueID := s.uniqueID
    currentTime := s.currentTime
    duration := s.duration
    isPlaying := s.isPlaying
    trackArt := s.trackArt
    isSkipped := false
    isScrobbled := false
    isMarkedAsPlaying := false
    isReplaying := false
    isValid := false }

/-- Modelled from the spec: the `Timer` class (`timer.ts`), not under `src/`.
States idle/running/paused/expired are encoded by the three flags;
`elapsed` is accumulated active time, `target` the optional firing
target. -/
structure Timer where
  started : Bool
  paused : Bool
  expired : Bool
  elapsed : Int
  target : Option Int
deriving DecidableEq, Repr

/-- The idle timer: cleared state, no accumulated time, no target. -/
def Timer.idle : Timer :=
  { started := false, paused := false, expired := false, elapsed := 0,
    target := none }

/-- Source `reset()`: returns to idle, clears accumulated time, target and pending
callback; idempotent. -/
def Timer.reset (_ : Timer) : Timer := Timer.idle

/-- Source `start(onExpire)`: begins timing from zero elapsed, armed with a pending
target to be set later via `update`. -/
def Timer.start (_ : Timer) : Timer :=
  { started := true, paused := false, expired := false, elapsed := 0,
    target := none }

/-- Source `pause()`: freezes accumulation; no-op if already paused or not
running. -/
def Timer.pause (t : Timer) : Timer :=
  if t.started && !t.expired then { t with paused := true } else t

/-- Source `resume()`: continues from exactly where it paused; no-op if not
paused. -/
def Timer.resume (t : Timer) : Timer :=
  if t.started && !t.expired then { t with paused := false } else t

/-- Source `update(target)`: sets/replaces the firing target without resetting
accumulated time; if elapsed already meets the new target the timer fires
immediately (exactly once).  Returns the timer and whether it fired now. -/
def Timer.update (t : Timer) (tgt : Option Int) : Timer × Bool :=
  let t := { t with target := tgt }
  match tgt with
  | none => (t, false)
  | some x =>
      if t.started && !t.expired && decide (x ≤ t.elapsed) then
        ({ t with expired := true }, true)
      else (t, false)

/-- Source `getElapsed()`: accumulated active seconds. -/
def Timer.getElapsed (t : Timer) : Int := t.elapsed

/-- Source `isExpired()`: true once the timer has fired. -/
def Timer.isExpired (t : Timer) : Bool := t.expired

/-- Wall-clock tick of `dt` seconds: a running timer accumulates; reaching
the target transitions to expired and fires exactly once.  Returns the
timer and whether it fired during this tick. -/
def Timer.tick (t : Timer) (dt : Int) : Timer × Bool :=
  if t.started && !t.paused && !t.expired then
    let t := { t with elapsed := t.elapsed + dt }
    match t.target with
    | some x =>
        if decide (x ≤ t.elapsed) then ({ t with expired := true }, true)
        else (t, false)
    | none => (t, false)
  else (t, false)

/-- Modelled from the spec: per-service call outcome tags of
`ApiCallResult` (`{Ok, Ignore, Error-kind}`); the two error kinds keep
"other case" honest. -/
inductive ResultType where
  | Ok
  | Ignore
  | ErrorAuth
  | ErrorOther
deriving DecidableEq, Repr

/-- Modelled from the spec: an `ApiCallResult`, an outcome tagged with the
originating service's identifier. -/
structure ApiCallResult where
  resultType : ResultType
  scrobblerId : String
deriving DecidableEq, Repr

/-- Source `result.is(kind)`. -/
def ApiCallResult.is (r : ApiCallResult) (k : ResultType) : Bool :=
  r.resultType == k

/-- Modelled from the spec: `areAllResults(results, kind)` from
`util.ts` — every outcome in the list has the given tag. -/
def areAllResults (results : List ApiCallResult) (k : ResultType) : Bool :=
  results.all (fun r => r.is k)

/-- Modelled from the spec: `isAnyResult(results, kind)` from `util.ts` —
some outcome in the list has the given tag. -/
def isAnyResult (results : List ApiCallResult) (k : ResultType) : Bool :=
  results.any (fun r => r.is k)

/-- Modelled from the spec: `isStateEmpty(state)` from `util.ts` — the
snapshot misses required identity fields, so there is not enough data to
use. -/
def isStateEmpty (s : ConnectorState) : Bool :=
  s.artist.isNone || s.track.isNone

/-- Modelled from the spec: `getSecondsToScrobble(duration, percent)` from
`util.ts` with the configured absolute cap: the reporting threshold is
`min(duration * percent / 100, cap)`; if duration is unknown or
non-positive there is no threshold and the sentinel `-1` ("ineligible")
is returned. -/
def getSecondsToScrobble (duration : Option Int) (percent cap : Int) : Int :=
  match duration with
  | none => -1
  | some d => if d ≤ 0 then -1 else min (d * percent / 100) cap

/-- Source `fieldsToCheckSongChange`: the identity fields compared by
`isSongChanged`, as projections out of a connector state. -/
def fieldsToCheckSongChange : List (ConnectorState → Option String) :=
  [ConnectorState.artist, ConnectorState.track, ConnectorState.album,
   ConnectorState.uniqueID]

/-- Source `isSongChanged(newState)`: true when there is no previous state, or any
of the four identity fields differs between the new and the previous
state. -/
def isSongChanged (previousState : Option ConnectorState)
    (newState : ConnectorState) : Bool :=
  match previousState with
  | none => true
  | some prev =>
      fieldsToCheckSongChange.any (fun field => field newState != field prev)

/-- TypeScript truthiness of an optional number (`undefined` and `0` are
falsy), as used by the `newState.duration &&` guard. -/
def durationTruthy : Option Int → Bool
  | none => false
  | some d => d != 0

/-- Observable effects of a controller run: listener notifications and
collaborator calls, in execution order.  `addSongToScrobbleStorageCall`
records an invocation of the controller's `addSongToScrobbleStorage`
helper with the ids it bound; the helper's `ScrobbleStorage.addSong` call
is commented out in the source (`TODO Fix`), so no storage enqueue ever
accompanies it — there is deliberately no storage-enqueue effect in this
model, because the program performs none. -/
inductive Effect where
  | modeChanged (m : ControllerMode)
  | songUpdated
  | nowPlaying
  | nowPlayingReset
  | pipelineProcess
  | sendNowPlayingRequest
  | sendScrobbleRequest
  | addSongToScrobbleStorageCall (ids : List String)
deriving DecidableEq, Repr

/-- The `Controller` state: mode, enablement, the current song, the two
timers, the replay flag, the podcast option, the recorded previous
snapshot, and the read-only configuration (service roster, scrobble
percentage, absolute cap). -/
structure Controller where
  mode : ControllerMode
  isEnabled : Bool
  currentSong : Option Song
  playbackTimer : Timer
  replayDetectionTimer : Timer
  isReplayingSong : Bool
  shouldScrobblePodcasts : Bool
  previousState : Option ConnectorState
  scrobblerIds : List String
  scrobblePercent : Int
  scrobbleCap : Int
deriving DecidableEq, Repr

/-- Source `setMode(mode)`: store the mode and notify the mode listener. -/
def Controller.setMode (c : Controller) (m : ControllerMode) :
    Controller × List Effect :=
  ({ c with mode := m }, [Effect.modeChanged m])

/-- Source `resetState()`: notify the now-playing listener of the reset, reset both
timers, clear the current song. -/
def Controller.resetState (c : Controller) : Controller × List Effect :=
  ({ c with playbackTimer := c.playbackTimer.reset,
            replayDetectionTimer := c.replayDetectionTimer.reset,
            currentSong := none },
   [Effect.nowPlayingReset])

/-- Source `reset()`: reset the state and return to Base mode. -/
def Controller.reset (c : Controller) : Controller × List Effect :=
  let (c1, e1) := c.resetState
  let (c2, e2) := c1.setMode ControllerMode.Base
  (c2, e1 ++ e2)

/-- Source `skipCurrentSong()`: throws when no song is playing; otherwise enters
Skipped mode, flags the song skipped, resets both timers and notifies the
song-update listener. -/
def Controller.skipCurrentSong (c : Controller) :
    Except String (Controller × List Effect) :=
  match c.currentSong with
  | none => .error "No song is now playing"
  | some song =>
      let (c1, e1) := c.setMode ControllerMode.Skipped
      let c2 := { c1 with currentSong := some { song with isSkipped := true },
                          playbackTimer := c1.playbackTimer.reset,
                          replayDetectionTimer := c1.replayDetectionTimer.reset }
      .ok (c2, e1 ++ [Effect.songUpdated])

/-- Source `unprocessSong()`: clear the current song and the timers' destination
targets (accumulated time is kept). -/
def Controller.unprocessSong (c : Controller) : Controller :=
  { c with currentSong := none,
           playbackTimer := (c.playbackTimer.update none).1,
           replayDetectionTimer := (c.replayDetectionTimer.update none).1 }

/-- Source `resetSongData()`: asserts a song is playing, then unprocesses it (the
persistence calls in the source are commented out). -/
def Controller.resetSongData (c : Controller) :
    Except String (Controller × List Effect) :=
  match c.currentSong with
  | none => .error "No song is now playing"
  | some _ => .ok (c.unprocessSong, [])

/-- Source `setUserSongData(data)`: asserts a song is playing, throws if it is
already scrobbled, then unprocesses it (the persistence calls in the
source are commented out; `data` is unused by the active code). -/
def Controller.setUserSongData (c : Controller) :
    Except String (Controller × List Effect) :=
  match c.currentSong with
  | none => .error "No song is now playing"
  | some song =>
      if song.isScrobbled then
        .error "Unable to set user data for scrobbled song"
      else .ok (c.unprocessSong, [])

/-- Source `isNeedToAddSongToScrobbleStorage()`: a current, not-yet-valid song
qualifies when a reporting threshold exists for its duration and the
playback timer's elapsed time meets it. -/
def Controller.isNeedToAddSongToScrobbleStorage (c : Controller) : Bool :=
  match c.currentSong with
  | some song =>
      if !song.isValid then
        let secondsToScrobble :=
          getSecondsToScrobble song.duration c.scrobblePercent c.scrobbleCap
        if secondsToScrobble != -1 then
          decide (secondsToScrobble ≤ c.playbackTimer.getElapsed)
        else false
      else false
  | none => false

/-- Source `addSongToScrobbleStorage(scrobblerIds?)`: binds the given ids
(all configured scrobbler ids when none are given), but its
`ScrobbleStorage.addSong` call is commented out in the source
(`TODO Fix`), so the helper performs no storage action and leaves the
controller unchanged; the emitted effect records only this dead helper
invocation and the ids it bound. -/
def Controller.addSongToScrobbleStorage (c : Controller)
    (scrobblerIds : Option (List String)) : Controller × List Effect :=
  let boundScrobblerIds := scrobblerIds.getD c.scrobblerIds
  (c, [Effect.addSongToScrobbleStorageCall boundScrobblerIds])

/-- Source `updateTimers(duration)`: no-op if the playback timer already expired;
otherwise, when a threshold exists, retarget the playback timer to the
threshold and the replay timer to the duration.  An immediately firing
playback timer starts `scrobbleSong` (which first issues the scrobble
request, then suspends); an immediately firing replay timer sets the
replay flag. -/
def Controller.updateTimers (c : Controller) (duration : Option Int) :
    Controller × List Effect :=
  if c.playbackTimer.isExpired then (c, [])
  else
    let secondsToScrobble :=
      getSecondsToScrobble duration c.scrobblePercent c.scrobbleCap
    if secondsToScrobble != -1 then
      let pt := c.playbackTimer.update (some secondsToScrobble)
      let rt := c.replayDetectionTimer.update duration
      let c1 := { c with playbackTimer := pt.1, replayDetectionTimer := rt.1 }
      let c2 := if rt.2 then { c1 with isReplayingSong := true } else c1
      (c2, if pt.2 then [Effect.sendScrobbleRequest] else [])
    else (c, [])

/-- Source `setSongNowPlaying()`: flag the song as marked, send the now-playing
request (whose response is the `results` oracle), enter Playing mode when
any service accepted and Err otherwise, then notify the now-playing
listener. -/
def Controller.setSongNowPlaying (c : Controller)
    (results : List ApiCallResult) : Except String (Controller × List Effect) :=
  match c.currentSong with
  | none => .error "TypeError: currentSong is null"
  | some song =>
      let c1 := { c with currentSong := some { song with isMarkedAsPlaying := true } }
      if isAnyResult results ResultType.Ok then
        let (c2, e2) := c1.setMode ControllerMode.Playing
        .ok (c2, Effect.sendNowPlayingRequest :: e2 ++ [Effect.nowPlaying])
      else
        let (c2, e2) := c1.setMode ControllerMode.Err
        .ok (c2, Effect.sendNowPlayingRequest :: e2 ++ [Effect.nowPlaying])

/-- Source `setSongNotRecognized()`: enter Unknown mode and notify the now-playing
listener. -/
def Controller.setSongNotRecognized (c : Controller) :
    Controller × List Effect :=
  let (c1, e1) := c.setMode ControllerMode.Unknown
  (c1, e1 ++ [Effect.nowPlaying])

/-- The part of `processSong()` that runs after the pipeline `await`
resolves, applied to the controller state at resumption time (the code
re-reads `this.currentSong` there).  `npResults` is the oracle for the
now-playing request issued by `setSongNowPlaying`. -/
def Controller.processSongCont (c : Controller)
    (npResults : List ApiCallResult) : Except String (Controller × List Effect) :=
  match c.currentSong with
  | none => .error "TypeError: currentSong is null"
  | some song =>
      if song.isValid then
        let song1 := { song with isMarkedAsPlaying := false }
        let c1 := { c with currentSong := some song1 }
        let (c2, e2) := c1.updateTimers song1.duration
        if song1.isPlaying then
          if !c2.playbackTimer.isExpired then
            match c2.setSongNowPlaying npResults with
            | .error e => .error e
            | .ok (c3, e3) => .ok (c3, e2 ++ e3 ++ [Effect.songUpdated])
          else
            .ok (c2, e2 ++ [Effect.nowPlaying, Effect.songUpdated])
        else
          let (c3, e3) := c2.setMode ControllerMode.Base
          .ok (c3, e2 ++ e3 ++ [Effect.songUpdated])
      else
        let (c1, e1) := c.setSongNotRecognized
        .ok (c1, e1 ++ [Effect.songUpdated])

/-- The part of `processSong()` up to the pipeline `await`: enter Loading
mode and start the enrichment call, which is then outstanding. -/
def Controller.processSongStart (c : Controller) : Controller × List Effect :=
  let (c1, e1) := c.setMode ControllerMode.Loading
  (c1, e1 ++ [Effect.pipelineProcess])

/-- Source `processSong()` run sequentially: the enrichment resolves immediately,
mutating the current song in place through the `enrich` oracle, and the
continuation runs on the resulting state. -/
def Controller.processSong (c : Controller) (enrich : Song → Song)
    (npResults : List ApiCallResult) : Except String (Controller × List Effect) :=
  let (c1, e1) := c.processSongStart
  let c2 := { c1 with currentSong := c1.currentSong.map enrich }
  match c2.processSongCont npResults with
  | .error e => .error e
  | .ok (c3, e3) => .ok (c3, e1 ++ e3)

/-- Source `processNewState(newState)`: reset bindings, create a fresh song with
the replay flag carried over, apply the podcast skip rule (returning
early, skipping the flag clear), otherwise start both timers, pause them
when the snapshot is not playing, and clear the replay flag. -/
def Controller.processNewState (c : Controller) (newState : ConnectorState) :
    Controller × List Effect :=
  let (c1, e1) := c.resetState
  let song := { SongImpl newState with isReplaying := c1.isReplayingSong }
  let c2 := { c1 with currentSong := some song }
  if !c2.shouldScrobblePodcasts && newState.isPodcast then
    match c2.skipCurrentSong with
    | .ok (c3, e3) => (c3, e1 ++ e3)
    | .error _ => (c2, e1)
  else
    let c3 := { c2 with playbackTimer := c2.playbackTimer.start,
                        replayDetectionTimer := c2.replayDetectionTimer.start }
    let c4 :=
      if !newState.isPlaying then
        { c3 with playbackTimer := c3.playbackTimer.pause,
                  replayDetectionTimer := c3.replayDetectionTimer.pause }
      else c3
    ({ c4 with isReplayingSong := false }, e1)

/-- Source `isNeedToUpdateDuration(newState)`: the snapshot carries a truthy
duration that differs from the current song's. -/
def isNeedToUpdateDuration (song : Song) (newState : ConnectorState) : Bool :=
  durationTruthy newState.duration && song.duration != newState.duration

/-- Source `updateSongDuration(duration)`: store the new duration and, when the
song is valid, retarget the timers from it. -/
def Controller.updateSongDuration (c : Controller) (duration : Option Int) :
    Controller × List Effect :=
  match c.currentSong with
  | none => (c, [])
  | some song =>
      let song1 := { song with duration := duration }
      let c1 := { c with currentSong := some song1 }
      if song1.isValid then c1.updateTimers duration else (c1, [])

/-- Source `onPlayingStateChanged(value)`: on resume, resume both timers and mark
the song as now playing when it is valid and not yet marked (else rebroadcast
the current mode); on pause, pause both timers. -/
def Controller.onPlayingStateChanged (c : Controller) (value : Bool)
    (npResults : List ApiCallResult) : Except String (Controller × List Effect) :=
  if value then
    let c1 := { c with playbackTimer := c.playbackTimer.resume,
                       replayDetectionTimer := c.replayDetectionTimer.resume }
    match c1.currentSong with
    | none => .error "TypeError: currentSong is null"
    | some song =>
        if !song.isMarkedAsPlaying && song.isValid then
          c1.setSongNowPlaying npResults
        else .ok (c1.setMode c1.mode)
  else
    .ok ({ c with playbackTimer := c.playbackTimer.pause,
                  replayDetectionTimer := c.replayDetectionTimer.pause }, [])

/-- Source `processCurrentState(newState)`: a same-item update; returns immediately
for a skipped song, otherwise writes currentTime/trackArt/isPlaying,
updates the duration when needed, and handles a playing-flag flip.  The
code dereferences `this.currentSong` unconditionally, so a missing song
is a TypeError. -/
def Controller.processCurrentState (c : Controller) (newState : ConnectorState)
    (npResults : List ApiCallResult) : Except String (Controller × List Effect) :=
  match c.currentSong with
  | none => .error "TypeError: currentSong is null"
  | some song =>
      if song.isSkipped then .ok (c, [])
      else
        let isPlayingStateChanged := song.isPlaying != newState.isPlaying
        let song1 := { song with currentTime := newState.currentTime,
                                 trackArt := newState.trackArt,
                                 isPlaying := newState.isPlaying }
        let c1 := { c with currentSong := some song1 }
        let (c2, e2) :=
          if isNeedToUpdateDuration song1 newState then
            c1.updateSongDuration newState.duration
          else (c1, [])
        if isPlayingStateChanged then
          match c2.onPlayingStateChanged newState.isPlaying npResults with
          | .error e => .error e
          | .ok (c3, e3) => .ok (c3, e2 ++ e3)
        else .ok (c2, e2)

/-- Source `processEmptyState(state)`: with a current song, apply the
partial-credit check, then reset; the recorded previous snapshot is kept
as is. -/
def Controller.processEmptyState (c : Controller) : Controller × List Effect :=
  match c.currentSong with
  | none => (c, [])
  | some _ =>
      let (c1, e1) :=
        if c.isNeedToAddSongToScrobbleStorage then c.addSongToScrobbleStorage none
        else (c, [])
      let (c2, e2) := c1.reset
      (c2, e1 ++ e2)

/-- The `failedScrobblerIds` computed by `scrobbleSong()`: the ids of the
results that are not Ok. -/
def failedScrobblerIds (results : List ApiCallResult) : List String :=
  (results.filter (fun r => !(r.is ResultType.Ok))).map ApiCallResult.scrobblerId

/-- The part of `scrobbleSong()` that runs after the scrobble request
`await` resolves with `results`: collect the non-Ok services' ids, then
aggregate (any Ok → flag scrobbled and Scrobbled mode; else all Ignore →
Ignored mode; else Err mode), and invoke the storage helper with the
collected ids when there are any (the helper's storage call is dead
code, so nothing is actually enqueued). -/
def Controller.scrobbleSongCont (c : Controller)
    (results : List ApiCallResult) : Except String (Controller × List Effect) :=
  let failedScrobblerIds := failedScrobblerIds results
  let isAnyOkResult := decide (failedScrobblerIds.length < results.length)
  let step :
      Except String (Controller × List Effect) :=
    if isAnyOkResult then
      match c.currentSong with
      | none => .error "TypeError: currentSong is null"
      | some song =>
          let c1 := { c with currentSong := some { song with isScrobbled := true } }
          let (c2, e2) := c1.setMode ControllerMode.Scrobbled
          .ok (c2, e2 ++ [Effect.songUpdated])
    else if areAllResults results ResultType.Ignore then
      .ok (c.setMode ControllerMode.Ignored)
    else
      .ok (c.setMode ControllerMode.Err)
  match step with
  | .error e => .error e
  | .ok (c1, e1) =>
      if failedScrobblerIds.length > 0 then
        let (c2, e2) := c1.addSongToScrobbleStorage (some failedScrobblerIds)
        .ok (c2, e1 ++ e2)
      else .ok (c1, e1)

/-- The storage-helper invocation effects at the end of `scrobbleSong()`:
the dead helper is called with the failed ids exactly when there are any
(no storage action accompanies the call). -/
def scrobbleStorageEffects (results : List ApiCallResult) : List Effect :=
  if (failedScrobblerIds results).length > 0 then
    [Effect.addSongToScrobbleStorageCall (failedScrobblerIds results)]
  else []

/-- Source `onStateChanged(newState)` up to the enrichment suspension point: a new
playing item leaves the enrichment call outstanding
(`processSongCont` is its pending continuation); every other path runs to
completion.  `npResults` feeds a now-playing request issued on a
playing-flag flip. -/
def Controller.onStateChangedStart (c : Controller) (newState : ConnectorState)
    (npResults : List ApiCallResult) : Except String (Controller × List Effect) :=
  if !c.isEnabled then .ok (c, [])
  else if isStateEmpty newState then .ok c.processEmptyState
  else
    let songChanged := isSongChanged c.previousState newState
    let c0 := { c with previousState := some newState }
    if songChanged || c0.isReplayingSong then
      if newState.isPlaying then
        let (c1, e1) :=
          if c0.isNeedToAddSongToScrobbleStorage then
            c0.addSongToScrobbleStorage none
          else (c0, [])
        let (c2, e2) := c1.processNewState newState
        let (c3, e3) := c2.processSongStart
        .ok (c3, e1 ++ e2 ++ e3)
      else .ok c0.reset
    else c0.processCurrentState newState npResults

/-- Source `onStateChanged(newState)` run sequentially: as `onStateChangedStart`,
but the enrichment of a new playing item resolves immediately through the
`enrich` oracle and its continuation runs on the resulting state. -/
def Controller.onStateChanged (c : Controller) (newState : ConnectorState)
    (enrich : Song → Song) (npResults : List ApiCallResult) :
    Except String (Controller × List Effect) :=
  if !c.isEnabled then .ok (c, [])
  else if isStateEmpty newState then .ok c.processEmptyState
  else
    let songChanged := isSongChanged c.previousState newState
    let c0 := { c with previousState := some newState }
    if songChanged || c0.isReplayingSong then
      if newState.isPlaying then
        let (c1, e1) :=
          if c0.isNeedToAddSongToScrobbleStorage then
            c0.addSongToScrobbleStorage none
          else (c0, [])
        let (c2, e2) := c1.processNewState newState
        match c2.processSong enrich npResults with
        | .error e => .error e
        | .ok (c3, e3) => .ok (c3, e1 ++ e2 ++ e3)
      else .ok c0.reset
    else c0.processCurrentState newState npResults

/-- A concrete playing snapshot of item A (duration 200 s). -/
def stateA : ConnectorState :=
  { artist := some "A", track := some "T", album := none, uniqueID := none,
    currentTime := some 0, duration := some 200, isPlaying := true,
    isPodcast := false, trackArt := none }

/-- A concrete playing snapshot of a different item B. -/
def stateB : ConnectorState :=
  { stateA with artist := some "B" }

/-- A concrete non-playing snapshot of the different item B. -/
def stateBnp : ConnectorState :=
  { stateA with artist := some "B", isPlaying := false }

/-- A concrete empty snapshot (no identity fields) that claims to be
playing. -/
def stateEmpty : ConnectorState :=
  { artist := none, track := none, album := none, uniqueID := none,
    currentTime := none, duration := none, isPlaying := true,
    isPodcast := false, trackArt := none }

/-- A freshly constructed, enabled controller with two configured services,
a 50 % scrobble percentage and a 240 s cap. -/
def cInit : Controller :=
  { mode := ControllerMode.Base, isEnabled := true, currentSong := none,
    playbackTimer := Timer.idle, replayDetectionTimer := Timer.idle,
    isReplayingSong := false, shouldScrobblePodcasts := true,
    previousState := none, scrobblerIds := ["lastfm", "libre"],
    scrobblePercent := 50, scrobbleCap := 240 }

/-- A running timer with 150 accumulated seconds and no target yet. -/
def timer150 : Timer :=
  { started := true, paused := false, expired := false, elapsed := 150,
    target := none }

/-- A controller mid-session: item A current but never enrichment-valid,
150 s elapsed (past its 100 s threshold), previous snapshot recorded. -/
def cMid : Controller :=
  { cInit with currentSong := some (SongImpl stateA),
               playbackTimer := timer150,
               previousState := some stateA }

/-- A controller whose current song was already scrobbled. -/
def cScrobbled : Controller :=
  { cMid with currentSong := some { SongImpl stateA with isScrobbled := true } }

/-- An enrichment oracle that validates the song and changes nothing
else. -/
def enrichValidate (s : Song) : Song := { s with isValid := true }

/-- First step of the stale-completion run: item A arrives at the fresh
controller and its enrichment call is left outstanding. -/
def staleRun1 : Except String (Controller × List Effect) :=
  cInit.onStateChangedStart stateA []

/-- The controller state while item A's enrichment is outstanding. -/
def staleC1 : Controller := (staleRun1.toOption.getD (cInit, [])).1

/-- Second step: the different item B supersedes A while A's enrichment is
still outstanding; B's own enrichment is now outstanding too. -/
def staleRun2 : Except String (Controller × List Effect) :=
  staleC1.onStateChangedStart stateB []

/-- The controller state after B superseded A, with A's enrichment
completion still pending. -/
def staleC2 : Controller := (staleRun2.toOption.getD (cInit, [])).1

/-- First step of the crash run: item A arrives at the fresh controller
(sequential enrichment validates it). -/
def crashRun1 : Except String (Controller × List Effect) :=
  cInit.onStateChanged stateA enrichValidate [⟨ResultType.Ok, "lastfm"⟩]

/-- The controller state with item A current. -/
def crashC1 : Controller := (crashRun1.toOption.getD (cInit, [])).1

/-- Second step of the crash run: an empty snapshot resets the session but
leaves the recorded previous snapshot in place. -/
def crashRun2 : Except String (Controller × List Effect) :=
  crashC1.onStateChanged stateEmpty enrichValidate []

/-- The controller state after the empty snapshot: no current song, but the
previous snapshot is still item A's. -/
def crashC2 : Controller := (crashRun2.toOption.getD (cInit, [])).1

/-- A concrete valid (enriched) song for item A. -/
def songAValid : Song := { SongImpl stateA with isValid := true }

/-- A controller whose current song is valid and playing, with freshly
started (zero-elapsed) timers. -/
def cValidFresh : Controller :=
  { cInit with currentSong := some songAValid,
               playbackTimer := Timer.idle.start,
               replayDetectionTimer := Timer.idle.start }

/-- Helper: a filtered list is strictly shorter than the original exactly
when some element fails the predicate. -/
theorem filter_length_lt_iff {α : Type} (p : α → Bool) (l : List α) :
    (l.filter p).length < l.length ↔ ∃ x ∈ l, p x = false := by
  induction l with
  | nil => simp
  | cons a t ih =>
      by_cases h : p a
      · simp [List.filter_cons, h, Nat.succ_lt_succ_iff, ih]
      · simp only [List.filter_cons, h, if_neg, Bool.false_eq_true,
          List.length_cons]
        constructor
        · intro _
          exact ⟨a, List.mem_cons_self a t, Bool.eq_false_iff.mpr h⟩
        · intro _
          exact Nat.lt_succ_of_le (List.length_filter_le p t)

/-- C3: with a previous snapshot recorded, the detector reports "same item"
(`isSongChanged = false`) exactly when artist, track, album and uniqueID
are pairwise equal — so differences confined to currentTime, isPlaying,
trackArt or duration never make it report a change — and with no previous
snapshot it always reports a different item. -/
theorem isSongChanged_spec (prev newState : ConnectorState) :
    (isSongChanged none newState = true) ∧
    (isSongChanged (some prev) newState = false ↔
      (newState.artist = prev.artist ∧ newState.track = prev.track ∧
       newState.album = prev.album ∧ newState.uniqueID = prev.uniqueID)) := by
  constructor
  · rfl
  · simp [isSongChanged, fieldsToCheckSongChange, List.any, bne]

/-- Helper: the three aggregation branches of `scrobbleSongCont` as
equations on the resulting controller and effect list. -/
theorem scrobbleSongCont_eq (c : Controller) (s : Song)
    (results : List ApiCallResult) (hs : c.currentSong = some s) :
    ((∃ r ∈ results, r.resultType = ResultType.Ok) →
       c.scrobbleSongCont results = .ok
         ({ c with currentSong := some { s with isScrobbled := true },
                   mode := ControllerMode.Scrobbled },
          [Effect.modeChanged ControllerMode.Scrobbled, Effect.songUpdated] ++
            scrobbleStorageEffects results)) ∧
    ((∀ r ∈ results, r.resultType ≠ ResultType.Ok) →
       (∀ r ∈ results, r.resultType = ResultType.Ignore) →
       c.scrobbleSongCont results = .ok
         ({ c with mode := ControllerMode.Ignored },
          [Effect.modeChanged ControllerMode.Ignored] ++
            scrobbleStorageEffects results)) ∧
    ((∀ r ∈ results, r.resultType ≠ ResultType.Ok) →
       (∃ r ∈ results, r.resultType ≠ ResultType.Ignore) →
       c.scrobbleSongCont results = .ok
         ({ c with mode := ControllerMode.Err },
          [Effect.modeChanged ControllerMode.Err] ++
            scrobbleStorageEffects results)) := by
  have hanyiff :
      ((results.filter (fun r => !(r.is ResultType.Ok))).length < results.length)
        ↔ ∃ r ∈ results, r.resultType = ResultType.Ok := by
    rw [filter_length_lt_iff]
    constructor
    · rintro ⟨x, hx, hpx⟩
      exact ⟨x, hx, by simpa [ApiCallResult.is, beq_iff_eq] using hpx⟩
    · rintro ⟨x, hx, hpx⟩
      exact ⟨x, hx, by simp [ApiCallResult.is, hpx]⟩
  refine ⟨?_, ?_, ?_⟩
  · intro hOk
    have hdec : (failedScrobblerIds results).length < results.length := by
      rw [failedScrobblerIds, List.length_map]
      exact hanyiff.mpr hOk
    by_cases hlen : (failedScrobblerIds results).length > 0 <;>
      simp [Controller.scrobbleSongCont, hs, hdec, hlen, scrobbleStorageEffects,
        Controller.setMode, Controller.addSongToScrobbleStorage]
  · intro hno hIgn
    have hdec : ¬ ((failedScrobblerIds results).length < results.length) := by
      rw [failedScrobblerIds, List.length_map]
      intro h
      rcases hanyiff.mp h with ⟨r, hr, hrt⟩
      exact hno r hr hrt
    have hall : areAllResults results ResultType.Ignore = true := by
      simp only [areAllResults, List.all_eq_true]
      intro r hr
      simp [ApiCallResult.is, hIgn r hr]
    by_cases hlen : (failedScrobblerIds results).length > 0 <;>
      simp [Controller.scrobbleSongCont, hs, hdec, hall, hlen,
        scrobbleStorageEffects, Controller.setMode,
        Controller.addSongToScrobbleStorage]
  · intro hno hex
    have hdec : ¬ ((failedScrobblerIds results).length < results.length) := by
      rw [failedScrobblerIds, List.length_map]
      intro h
      rcases hanyiff.mp h with ⟨r, hr, hrt⟩
      exact hno r hr hrt
    have hall : areAllResults results ResultType.Ignore = false := by
      simp only [areAllResults, List.all_eq_false]
      rcases hex with ⟨r, hr, hrt⟩
      exact ⟨r, hr, by simp [ApiCallResult.is, hrt]⟩
    by_cases hlen : (failedScrobblerIds results).length > 0 <;>
      simp [Controller.scrobbleSongCont, hs, hdec, hall, hlen,
        scrobbleStorageEffects, Controller.setMode,
        Controller.addSongToScrobbleStorage]

/-- Helper: membership of a storage-helper-call effect in the trailing
effects of `scrobbleSong()`. -/
theorem mem_scrobbleStorageEffects (results : List ApiCallResult)
    (ids : List String) :
    Effect.addSongToScrobbleStorageCall ids ∈ scrobbleStorageEffects results ↔
      ids = failedScrobblerIds results ∧ failedScrobblerIds results ≠ [] := by
  by_cases h : (failedScrobblerIds results).length > 0
  · have hne : failedScrobblerIds results ≠ [] := by
      intro he
      rw [he] at h
      exact absurd h (by simp)
    simp [scrobbleStorageEffects, h, hne]
  · have he : failedScrobblerIds results = [] :=
      List.length_eq_zero.mp (Nat.eq_zero_of_not_pos h)
    simp [scrobbleStorageEffects, h, he]

/-- C1: when the reporting timer's scrobble attempt resolves, the per-service
outcomes aggregate as: some service Ok → the song's `isScrobbled` flag is
set and the mode becomes Scrobbled; no Ok but all Ignore → mode Ignored
and the song (hence its `isScrobbled` flag) unchanged; otherwise → mode
Err. -/
theorem scrobbleSong_aggregation (c : Controller) (s : Song)
    (results : List ApiCallResult) (hs : c.currentSong = some s) :
    ∃ c1 effs, c.scrobbleSongCont results = .ok (c1, effs) ∧
      ((∃ r ∈ results, r.resultType = ResultType.Ok) →
        c1.mode = ControllerMode.Scrobbled ∧
        c1.currentSong = some { s with isScrobbled := true }) ∧
      ((∀ r ∈ results, r.resultType ≠ ResultType.Ok) →
        (∀ r ∈ results, r.resultType = ResultType.Ignore) →
        c1.mode = ControllerMode.Ignored ∧ c1.currentSong = some s) ∧
      ((∀ r ∈ results, r.resultType ≠ ResultType.Ok) →
        (∃ r ∈ results, r.resultType ≠ ResultType.Ignore) →
        c1.mode = ControllerMode.Err ∧ c1.currentSong = some s) := by
  rcases scrobbleSongCont_eq c s results hs with ⟨h1, h2, h3⟩
  by_cases hOk : ∃ r ∈ results, r.resultType = ResultType.Ok
  · refine ⟨_, _, h1 hOk, fun _ => ⟨rfl, rfl⟩, ?_, ?_⟩
    · intro hno _
      rcases hOk with ⟨r, hr, hrt⟩
      exact absurd hrt (hno r hr)
    · intro hno _
      rcases hOk with ⟨r, hr, hrt⟩
      exact absurd hrt (hno r hr)
  · have hno : ∀ r ∈ results, r.resultType ≠ ResultType.Ok := by
      intro r hr hrt
      exact hOk ⟨r, hr, hrt⟩
    by_cases hIgn : ∀ r ∈ results, r.resultType = ResultType.Ignore
    · refine ⟨_, _, h2 hno hIgn, ?_, fun _ _ => ⟨rfl, hs⟩, ?_⟩
      · intro h
        exact absurd h hOk
      · intro _ hex
        rcases hex with ⟨r, hr, hrt⟩
        exact absurd (hIgn r hr) hrt
    · have hex : ∃ r ∈ results, r.resultType ≠ ResultType.Ignore := by
        push_neg at hIgn
        exact hIgn
      refine ⟨_, _, h3 hno hex, ?_, ?_, fun _ _ => ⟨rfl, hs⟩⟩
      · intro h
        exact absurd h hOk
      · intro _ hIgn2
        exact absurd hIgn2 hIgn

/-- Witness for C1 at a concrete input: one Ok result scrobbles the
mid-session controller's song and enters Scrobbled mode. -/
theorem scrobbleSong_aggregation_witness :
    cMid.currentSong = some (SongImpl stateA) ∧
    ∃ c1 effs,
      cMid.scrobbleSongCont [⟨ResultType.Ok, "lastfm"⟩] = .ok (c1, effs) ∧
      c1.mode = ControllerMode.Scrobbled ∧
      c1.currentSong = some { SongImpl stateA with isScrobbled := true } := by
  refine ⟨rfl, ?_⟩
  rcases scrobbleSong_aggregation cMid (SongImpl stateA)
      [⟨ResultType.Ok, "lastfm"⟩] rfl with ⟨c1, effs, hrun, hok, _, _⟩
  exact ⟨c1, effs, hrun, hok ⟨⟨ResultType.Ok, "lastfm"⟩, by simp, rfl⟩⟩

/-- Counterexample to C2: nothing is ever enqueued for deferred retry.  At
an outcome list with one Error-kind service the run's entire effect trace
is the mode change plus an invocation of the dead storage helper (whose
`ScrobbleStorage.addSong` call is commented out in the source), so the
failed service is not enqueued as the claim requires; moreover the helper
invocation after an all-Ignore attempt carries the Ignore service's id,
and the helper leaves the controller unchanged. -/
theorem scrobbleSong_no_actual_enqueue :
    cMid.scrobbleSongCont [⟨ResultType.ErrorOther, "libre"⟩] =
      .ok ({ cMid with mode := ControllerMode.Err },
           [Effect.modeChanged ControllerMode.Err,
            Effect.addSongToScrobbleStorageCall ["libre"]]) ∧
    cMid.scrobbleSongCont [⟨ResultType.Ignore, "lastfm"⟩] =
      .ok ({ cMid with mode := ControllerMode.Ignored },
           [Effect.modeChanged ControllerMode.Ignored,
            Effect.addSongToScrobbleStorageCall ["lastfm"]]) ∧
    cMid.addSongToScrobbleStorage (some ["libre"]) =
      (cMid, [Effect.addSongToScrobbleStorageCall ["libre"]]) :=
  ⟨rfl, rfl, rfl⟩

/-- C2 (amended): after a scrobble attempt nothing is enqueued for deferred
retry — the storage helper's `ScrobbleStorage.addSong` call is commented
out (`TODO Fix`) and the helper leaves the controller unchanged,
performing no action beyond its own invocation — but that helper is
invoked with exactly the services whose outcome was not Ok, Ignore
outcomes included, whenever there are any (so a restored storage call
would also re-submit to services that ignored the item). -/
theorem scrobbleSong_helper_call_ids (c : Controller) (s : Song)
    (results : List ApiCallResult) (hs : c.currentSong = some s)
    (c1 : Controller) (effs : List Effect)
    (hrun : c.scrobbleSongCont results = .ok (c1, effs)) (ids : List String) :
    (Effect.addSongToScrobbleStorageCall ids ∈ effs ↔
      ids = failedScrobblerIds results ∧ failedScrobblerIds results ≠ []) ∧
    (∀ given : Option (List String),
       c1.addSongToScrobbleStorage given =
         (c1, [Effect.addSongToScrobbleStorageCall
                 (given.getD c1.scrobblerIds)])) := by
  refine ⟨?_, fun given => rfl⟩
  rcases scrobbleSongCont_eq c s results hs with ⟨h1, h2, h3⟩
  by_cases hOk : ∃ r ∈ results, r.resultType = ResultType.Ok
  · rw [h1 hOk] at hrun
    obtain ⟨-, heffs⟩ : _ ∧ _ := by
      simpa using hrun.symm
    subst heffs
    simp [mem_scrobbleStorageEffects]
  · have hno : ∀ r ∈ results, r.resultType ≠ ResultType.Ok := by
      intro r hr hrt
      exact hOk ⟨r, hr, hrt⟩
    by_cases hIgn : ∀ r ∈ results, r.resultType = ResultType.Ignore
    · rw [h2 hno hIgn] at hrun
      obtain ⟨-, heffs⟩ : _ ∧ _ := by
        simpa using hrun.symm
      subst heffs
      simp [mem_scrobbleStorageEffects]
    · have hex : ∃ r ∈ results, r.resultType ≠ ResultType.Ignore := by
        push_neg at hIgn
        exact hIgn
      rw [h3 hno hex] at hrun
      obtain ⟨-, heffs⟩ : _ ∧ _ := by
        simpa using hrun.symm
      subst heffs
      simp [mem_scrobbleStorageEffects]

/-- Witness for C2's amended theorem at a concrete input: with one Ignore
result, the helper-invocation-ids characterization and the helper's
no-op equation hold for the recorded run. -/
theorem scrobbleSong_helper_call_ids_witness :
    cMid.currentSong = some (SongImpl stateA) ∧
    ((Effect.addSongToScrobbleStorageCall ["lastfm"] ∈
        [Effect.modeChanged ControllerMode.Ignored,
         Effect.addSongToScrobbleStorageCall ["lastfm"]] ↔
      (["lastfm"] = failedScrobblerIds [⟨ResultType.Ignore, "lastfm"⟩] ∧
       failedScrobblerIds [⟨ResultType.Ignore, "lastfm"⟩] ≠ [])) ∧
     (∀ given : Option (List String),
        ({ cMid with mode := ControllerMode.Ignored }).addSongToScrobbleStorage
            given =
          ({ cMid with mode := ControllerMode.Ignored },
           [Effect.addSongToScrobbleStorageCall
              (given.getD ["lastfm", "libre"])]))) :=
  ⟨rfl, scrobbleSong_helper_call_ids cMid (SongImpl stateA)
    [⟨ResultType.Ignore, "lastfm"⟩] rfl
    { cMid with mode := ControllerMode.Ignored }
    [Effect.modeChanged ControllerMode.Ignored,
     Effect.addSongToScrobbleStorageCall ["lastfm"]] rfl ["lastfm"]⟩

/-- Helper: `update` installs exactly the given target. -/
theorem Timer.update_target (t : Timer) (tgt : Option Int) :
    (t.update tgt).1.target = tgt := by
  cases tgt
  · rfl
  · simp only [Timer.update]
    split
    · rfl
    · rfl

/-- Helper: `updateTimers` never touches the current song. -/
theorem updateTimers_currentSong (c : Controller) (d : Option Int) :
    (c.updateTimers d).1.currentSong = c.currentSong := by
  by_cases h1 : c.playbackTimer.isExpired
  · simp [Controller.updateTimers, h1]
  · by_cases h2 : getSecondsToScrobble d c.scrobblePercent c.scrobbleCap = -1
    · simp [Controller.updateTimers, h1, h2]
    · by_cases h3 : (c.replayDetectionTimer.update d).2
      all_goals simp [Controller.updateTimers, h1, h2, h3]

/-- Helper: `updateTimers` emits at most the scrobble request of an
immediately fired playback timer. -/
theorem updateTimers_effects (c : Controller) (d : Option Int) :
    (c.updateTimers d).2 = [] ∨
      (c.updateTimers d).2 = [Effect.sendScrobbleRequest] := by
  by_cases h1 : c.playbackTimer.isExpired
  · simp [Controller.updateTimers, h1]
  · by_cases h2 : getSecondsToScrobble d c.scrobblePercent c.scrobbleCap = -1
    · simp [Controller.updateTimers, h1, h2]
    · by_cases h4 : (c.playbackTimer.update
        (some (getSecondsToScrobble d c.scrobblePercent c.scrobbleCap))).2
      all_goals simp [Controller.updateTimers, h1, h2, h4]

/-- Helper: with an unexpired playback timer and an eligible threshold,
`updateTimers` retargets the playback timer to the threshold and the
replay timer to the duration. -/
theorem updateTimers_targets (c : Controller) (d : Option Int)
    (hne : c.playbackTimer.isExpired = false)
    (hth : getSecondsToScrobble d c.scrobblePercent c.scrobbleCap ≠ -1) :
    (c.updateTimers d).1.playbackTimer.target =
      some (getSecondsToScrobble d c.scrobblePercent c.scrobbleCap) ∧
    (c.updateTimers d).1.replayDetectionTimer.target = d := by
  by_cases h3 : (c.replayDetectionTimer.update d).2
  all_goals
    simp [Controller.updateTimers, hne, hth, h3, Timer.update_target]

/-- C4: when the enrichment call resolves, the continuation re-reads the
current song: a valid session retargets both timers from the resolved
duration (threshold to the playback timer, duration to the replay timer,
provided the playback timer had not expired and a threshold exists) and,
if playing, attempts a mark-as-now-playing report — unless the reporting
timer is expired by then, in which case only the now-playing listener
notification is emitted with no such report; a valid non-playing session
enters Base mode; an invalid session enters Unknown mode and only emits
the now-playing notification, never a reporting request. -/
theorem processSong_resolution (c : Controller) (s : Song)
    (npResults : List ApiCallResult) (hs : c.currentSong = some s) :
    (s.isValid = false →
       c.processSongCont npResults = .ok
         ({ c with mode := ControllerMode.Unknown },
          [Effect.modeChanged ControllerMode.Unknown, Effect.nowPlaying,
           Effect.songUpdated])) ∧
    (s.isValid = true →
      ∀ cU eU,
        ({ c with currentSong := some { s with isMarkedAsPlaying := false } }).updateTimers s.duration = (cU, eU) →
        ((c.playbackTimer.isExpired = false →
            getSecondsToScrobble s.duration c.scrobblePercent c.scrobbleCap ≠ -1 →
            cU.playbackTimer.target =
              some (getSecondsToScrobble s.duration c.scrobblePercent
                c.scrobbleCap) ∧
            cU.replayDetectionTimer.target = s.duration) ∧
         (s.isPlaying = false →
            c.processSongCont npResults = .ok
              ({ cU with mode := ControllerMode.Base },
               eU ++ [Effect.modeChanged ControllerMode.Base,
                      Effect.songUpdated])) ∧
         (s.isPlaying = true → cU.playbackTimer.isExpired = false →
            ∃ c3 effs, c.processSongCont npResults = .ok (c3, effs) ∧
              Effect.sendNowPlayingRequest ∈ effs ∧
              Effect.nowPlaying ∈ effs ∧
              c3.currentSong = some { s with isMarkedAsPlaying := true }) ∧
         (s.isPlaying = true → cU.playbackTimer.isExpired = true →
            c.processSongCont npResults = .ok
              (cU, eU ++ [Effect.nowPlaying, Effect.songUpdated]) ∧
            Effect.sendNowPlayingRequest ∉ eU))) := by
  constructor
  · intro hv
    simp [Controller.processSongCont, hs, hv, Controller.setSongNotRecognized,
      Controller.setMode]
  · intro hv cU eU hU
    have hsongU : cU.currentSong = some { s with isMarkedAsPlaying := false } := by
      have h := updateTimers_currentSong
        { c with currentSong := some { s with isMarkedAsPlaying := false } }
        s.duration
      rw [hU] at h
      exact h
    refine ⟨?_, ?_, ?_, ?_⟩
    · intro hne hth
      have h := updateTimers_targets
        { c with currentSong := some { s with isMarkedAsPlaying := false } }
        s.duration hne hth
      rw [hU] at h
      exact h
    · intro hp
      simp only [Controller.processSongCont, hs]
      rw [hU]
      simp [hv, hp, Controller.setMode]
    · intro hp hexp
      by_cases hok : isAnyResult npResults ResultType.Ok = true
      · refine ⟨{ cU with currentSong := some { s with isMarkedAsPlaying := true }, mode := ControllerMode.Playing },
          eU ++ [Effect.sendNowPlayingRequest,
                 Effect.modeChanged ControllerMode.Playing, Effect.nowPlaying,
                 Effect.songUpdated], ?_, by simp, by simp, rfl⟩
        simp only [Controller.processSongCont, hs]
        rw [hU]
        simp [hv, hp, hexp, hsongU, hok, Controller.setSongNowPlaying,
          Controller.setMode]
      · refine ⟨{ cU with currentSong := some { s with isMarkedAsPlaying := true }, mode := ControllerMode.Err },
          eU ++ [Effect.sendNowPlayingRequest,
                 Effect.modeChanged ControllerMode.Err, Effect.nowPlaying,
                 Effect.songUpdated], ?_, by simp, by simp, rfl⟩
        simp only [Controller.processSongCont, hs]
        rw [hU]
        simp [hv, hp, hexp, hsongU, hok, Controller.setSongNowPlaying,
          Controller.setMode]
    · intro hp hexp
      constructor
      · simp only [Controller.processSongCont, hs]
        rw [hU]
        simp [hv, hp, hexp]
      · intro hmem
        rcases updateTimers_effects
            { c with currentSong := some { s with isMarkedAsPlaying := false } }
            s.duration with h | h
        all_goals rw [hU] at h
        · have h2 : eU = [] := h
          rw [h2] at hmem
          exact absurd hmem (List.not_mem_nil _)
        · have h2 : eU = [Effect.sendScrobbleRequest] := h
          rw [h2] at hmem
          simp at hmem

/-- Witness for C4 at a concrete input: a valid playing song with fresh
timers gets its now-playing report attempted. -/
theorem processSong_resolution_witness :
    cValidFresh.currentSong = some songAValid ∧
    songAValid.isValid = true ∧ songAValid.isPlaying = true ∧
    ∃ c3 effs,
      cValidFresh.processSongCont [⟨ResultType.Ok, "lastfm"⟩] = .ok (c3, effs) ∧
      Effect.sendNowPlayingRequest ∈ effs ∧ Effect.nowPlaying ∈ effs ∧
      c3.currentSong = some { songAValid with isMarkedAsPlaying := true } := by
  refine ⟨rfl, rfl, rfl, ?_⟩
  have h2 := (processSong_resolution cValidFresh songAValid
      [⟨ResultType.Ok, "lastfm"⟩] rfl).2 rfl _ _ rfl
  exact h2.2.2.1 rfl (by decide)

/-- Counterexample to C5: a different-item, non-playing snapshot resets a
session that already qualifies for partial credit
(`isNeedToAddSongToScrobbleStorage = true`) without any enqueue effect —
the partial-credit rule is not applied on this path. -/
theorem differentItemNotPlaying_no_partial_credit :
    cMid.isNeedToAddSongToScrobbleStorage = true ∧
    cMid.onStateChanged stateBnp id [] =
      .ok ({ cMid with previousState := some stateBnp, currentSong := none,
                       playbackTimer := Timer.idle,
                       replayDetectionTimer := Timer.idle,
                       mode := ControllerMode.Base },
           [Effect.nowPlayingReset, Effect.modeChanged ControllerMode.Base]) :=
  ⟨by decide, rfl⟩

/-- C5 (amended): when a non-empty snapshot describing a different item
arrives while that snapshot is not playing, the session is ended without
the partial-credit check — the controller resets (current song cleared,
timers idle), the mode returns to Base, no new session is created, and
nothing is queued for deferred reporting. -/
theorem differentItemNotPlaying_resets (c : Controller)
    (newState : ConnectorState) (enrich : Song → Song)
    (npResults : List ApiCallResult)
    (hen : c.isEnabled = true) (hne : isStateEmpty newState = false)
    (hch : isSongChanged c.previousState newState = true)
    (hp : newState.isPlaying = false) :
    c.onStateChanged newState enrich npResults = .ok
      ({ c with previousState := some newState, currentSong := none,
                playbackTimer := Timer.idle, replayDetectionTimer := Timer.idle,
                mode := ControllerMode.Base },
       [Effect.nowPlayingReset, Effect.modeChanged ControllerMode.Base]) := by
  simp [Controller.onStateChanged, hen, hne, hch, hp, Controller.reset,
    Controller.resetState, Controller.setMode, Timer.reset]

/-- Witness for C5's amended theorem at a concrete input. -/
theorem differentItemNotPlaying_resets_witness :
    cMid.isEnabled = true ∧ isStateEmpty stateBnp = false ∧
    isSongChanged cMid.previousState stateBnp = true ∧
    stateBnp.isPlaying = false ∧
    cMid.onStateChanged stateBnp id [] = .ok
      ({ cMid with previousState := some stateBnp, currentSong := none,
                   playbackTimer := Timer.idle,
                   replayDetectionTimer := Timer.idle,
                   mode := ControllerMode.Base },
       [Effect.nowPlayingReset, Effect.modeChanged ControllerMode.Base]) :=
  ⟨rfl, rfl, by decide, rfl,
   differentItemNotPlaying_resets cMid stateBnp id [] rfl rfl (by decide) rfl⟩

/-- Helper: a never-valid current session is deemed storable exactly when a
reporting threshold exists for its duration (no -1 sentinel) and the
playback timer's elapsed seconds meet it; the helper invoked without
explicit ids binds all configured scrobbler ids (performing no storage
action). -/
theorem partial_credit_rule (c : Controller) (s : Song)
    (hs : c.currentSong = some s) (hv : s.isValid = false) :
    (c.isNeedToAddSongToScrobbleStorage = true ↔
      (getSecondsToScrobble s.duration c.scrobblePercent c.scrobbleCap ≠ -1 ∧
       getSecondsToScrobble s.duration c.scrobblePercent c.scrobbleCap ≤
         c.playbackTimer.getElapsed)) ∧
    c.addSongToScrobbleStorage none =
      (c, [Effect.addSongToScrobbleStorageCall c.scrobblerIds]) := by
  refine ⟨?_, rfl⟩
  by_cases h : getSecondsToScrobble s.duration c.scrobblePercent c.scrobbleCap = -1
  · simp [Controller.isNeedToAddSongToScrobbleStorage, hs, hv, h]
  · simp [Controller.isNeedToAddSongToScrobbleStorage, hs, hv, h,
      Timer.getElapsed]

/-- C6 (code bug): at reset time, a never-valid session past its threshold
passes the storable check and the controller invokes its storage helper
with all configured service ids — but the helper's
`ScrobbleStorage.addSong` call is commented out in the source
(`TODO Fix`), so the run's full effect trace shows the dead helper
invocation and the reset, and nothing reaches the storage collaborator;
the helper itself leaves the controller unchanged. -/
theorem partial_credit_no_storage :
    cMid.isNeedToAddSongToScrobbleStorage = true ∧
    cMid.processEmptyState =
      ({ cMid with currentSong := none, playbackTimer := Timer.idle,
                   replayDetectionTimer := Timer.idle,
                   mode := ControllerMode.Base },
       [Effect.addSongToScrobbleStorageCall ["lastfm", "libre"],
        Effect.nowPlayingReset, Effect.modeChanged ControllerMode.Base]) ∧
    cMid.addSongToScrobbleStorage none =
      (cMid, [Effect.addSongToScrobbleStorageCall ["lastfm", "libre"]]) :=
  ⟨by decide, rfl, rfl⟩

/-- Counterexample to C7: on a controller whose current song is already
scrobbled, `resetSongData` succeeds (does not throw) while
`setUserSongData` throws — the already-reported check exists only in the
latter. -/
theorem resetSongData_ignores_scrobbled :
    cScrobbled.currentSong = some { SongImpl stateA with isScrobbled := true } ∧
    cScrobbled.resetSongData = .ok (cScrobbled.unprocessSong, []) ∧
    cScrobbled.setUserSongData =
      .error "Unable to set user data for scrobbled song" :=
  ⟨rfl, rfl, rfl⟩

/-- C7 (amended): both user-data operations throw synchronously when no
session is active; `setUserSongData` additionally throws when the active
session is already scrobbled, while `resetSongData` performs no
already-scrobbled check and unprocesses the song regardless. -/
theorem user_ops_preconditions (c : Controller) :
    (c.currentSong = none →
       c.resetSongData = .error "No song is now playing" ∧
       c.setUserSongData = .error "No song is now playing") ∧
    (∀ s, c.currentSong = some s →
       (s.isScrobbled = true →
          c.setUserSongData =
            .error "Unable to set user data for scrobbled song") ∧
       (s.isScrobbled = false →
          c.setUserSongData = .ok (c.unprocessSong, [])) ∧
       c.resetSongData = .ok (c.unprocessSong, [])) := by
  constructor
  · intro h
    constructor <;>
      simp [Controller.resetSongData, Controller.setUserSongData, h]
  · intro s hsome
    refine ⟨?_, ?_, ?_⟩
    · intro hscr
      simp [Controller.setUserSongData, hsome, hscr]
    · intro hscr
      simp [Controller.setUserSongData, hsome, hscr]
    · simp [Controller.resetSongData, hsome]

/-- Witness for C7's amended theorem at concrete inputs. -/
theorem user_ops_preconditions_witness :
    cInit.resetSongData = .error "No song is now playing" ∧
    cScrobbled.setUserSongData =
      .error "Unable to set user data for scrobbled song" :=
  ⟨((user_ops_preconditions cInit).1 rfl).1,
   (((user_ops_preconditions cScrobbled).2
       { SongImpl stateA with isScrobbled := true } rfl).1 rfl)⟩

/-- C8: `skipCurrentSong` throws when no session is active; otherwise the
mode becomes Skipped, the song's `isSkipped` flag is set, both timers are
reset to the idle timer (whose elapsed reading is 0); a same-item
snapshot on a skipped session returns the controller unchanged with no
effects, and an idle (reset) reporting timer can fire neither on a tick
nor on a retarget. -/
theorem skip_spec (c : Controller) (newState : ConnectorState)
    (npResults : List ApiCallResult) :
    (c.currentSong = none →
       c.skipCurrentSong = .error "No song is now playing") ∧
    (∀ s, c.currentSong = some s →
       c.skipCurrentSong = .ok
         ({ c with mode := ControllerMode.Skipped,
                   currentSong := some { s with isSkipped := true },
                   playbackTimer := Timer.idle,
                   replayDetectionTimer := Timer.idle },
          [Effect.modeChanged ControllerMode.Skipped, Effect.songUpdated])) ∧
    Timer.idle.getElapsed = 0 ∧
    (∀ c2 : Controller, ∀ s2 : Song, c2.currentSong = some s2 → s2.isSkipped = true →
       c2.processCurrentState newState npResults = .ok (c2, [])) ∧
    (∀ dt, (Timer.idle.tick dt).2 = false) ∧
    (∀ tgt, (Timer.idle.update tgt).2 = false) := by
  refine ⟨?_, ?_, rfl, ?_, ?_, ?_⟩
  · intro h
    simp [Controller.skipCurrentSong, h]
  · intro s hsome
    simp [Controller.skipCurrentSong, hsome, Controller.setMode, Timer.reset]
  · intro c2 s2 hsome hskip
    simp [Controller.processCurrentState, hsome, hskip]
  · intro dt
    simp [Timer.tick, Timer.idle]
  · intro tgt
    cases tgt <;> simp [Timer.update, Timer.idle]

/-- Witness for C8 at a concrete input. -/
theorem skip_spec_witness :
    cMid.skipCurrentSong = .ok
      ({ cMid with mode := ControllerMode.Skipped,
                   currentSong := some { SongImpl stateA with isSkipped := true },
                   playbackTimer := Timer.idle,
                   replayDetectionTimer := Timer.idle },
       [Effect.modeChanged ControllerMode.Skipped, Effect.songUpdated]) :=
  (skip_spec cMid stateA []).2.1 (SongImpl stateA) rfl

/-- Counterexample to C9: item A's enrichment is left outstanding, item B
supersedes it, and A's stale completion — run on the superseded state —
still performs post-enrichment side effects: it flips the mode from
Loading to Unknown and notifies listeners instead of detecting that its
session is gone. -/
theorem stale_completion_counterexample :
    staleRun1 = .ok (staleC1,
      [Effect.nowPlayingReset, Effect.modeChanged ControllerMode.Loading,
       Effect.pipelineProcess]) ∧
    staleRun2 = .ok (staleC2,
      [Effect.nowPlayingReset, Effect.modeChanged ControllerMode.Loading,
       Effect.pipelineProcess]) ∧
    staleC1.currentSong = some (SongImpl stateA) ∧
    staleC2.currentSong = some (SongImpl stateB) ∧
    staleC2.mode = ControllerMode.Loading ∧
    staleC2.processSongCont [] = .ok
      ({ staleC2 with mode := ControllerMode.Unknown },
       [Effect.modeChanged ControllerMode.Unknown, Effect.nowPlaying,
        Effect.songUpdated]) :=
  ⟨rfl, rfl, rfl, rfl, rfl, rfl⟩

/-- C9 (amended): no staleness detection exists — an outstanding
enrichment completion runs against whatever session is current at
resumption, faulting when the session was reset to null and performing
its post-enrichment side effects (Unknown mode, now-playing
notification) when the superseding session is not yet valid; only
pending timer callbacks are neutralized, because a reset timer can fire
neither on a tick nor on a retarget. -/
theorem stale_completion_behavior (c : Controller)
    (npResults : List ApiCallResult) :
    (c.currentSong = none →
       c.processSongCont npResults = .error "TypeError: currentSong is null") ∧
    (∀ s, c.currentSong = some s → s.isValid = false →
       c.processSongCont npResults = .ok
         ({ c with mode := ControllerMode.Unknown },
          [Effect.modeChanged ControllerMode.Unknown, Effect.nowPlaying,
           Effect.songUpdated])) ∧
    (∀ t : Timer, ∀ dt, (t.reset.tick dt).2 = false) ∧
    (∀ t : Timer, ∀ tgt, (t.reset.update tgt).2 = false) := by
  refine ⟨?_, ?_, ?_, ?_⟩
  · intro h
    simp [Controller.processSongCont, h]
  · intro s hsome hv
    simp [Controller.processSongCont, hsome, hv,
      Controller.setSongNotRecognized, Controller.setMode]
  · intro t dt
    simp [Timer.reset, Timer.tick, Timer.idle]
  · intro t tgt
    cases tgt <;> simp [Timer.reset, Timer.update, Timer.idle]

/-- Witness for C9's amended theorem at concrete inputs. -/
theorem stale_completion_behavior_witness :
    cInit.processSongCont [] = .error "TypeError: currentSong is null" ∧
    staleC2.processSongCont [] = .ok
      ({ staleC2 with mode := ControllerMode.Unknown },
       [Effect.modeChanged ControllerMode.Unknown, Effect.nowPlaying,
        Effect.songUpdated]) :=
  ⟨(stale_completion_behavior cInit []).1 rfl,
   (stale_completion_behavior staleC2 []).2.1 (SongImpl stateB) rfl rfl⟩

/-- C10 (code bug): after a playing snapshot of item A, an empty snapshot
resets the session but leaves the recorded previous snapshot in place;
the next snapshot identical to A is classified as the same item and the
same-item path dereferences the null current song — `onStateChanged`
faults instead of running with an active session. -/
theorem sameItem_after_empty_crashes :
    crashRun1 = .ok (crashC1,
      [Effect.nowPlayingReset, Effect.modeChanged ControllerMode.Loading,
       Effect.pipelineProcess, Effect.sendNowPlayingRequest,
       Effect.modeChanged ControllerMode.Playing, Effect.nowPlaying,
       Effect.songUpdated]) ∧
    crashRun2 = .ok (crashC2,
      [Effect.nowPlayingReset, Effect.modeChanged ControllerMode.Base]) ∧
    crashC2.currentSong = none ∧
    crashC2.previousState = some stateA ∧
    isSongChanged crashC2.previousState stateA = false ∧
    crashC2.onStateChanged stateA enrichValidate [] =
      .error "TypeError: currentSong is null" :=
  ⟨rfl, rfl, rfl, rfl, by decide, rfl⟩
